import Mathlib

/-!
Shallow embedding of the quota-scan registry, idle-connection sweeper,
SSH command configuration and HTTP quota handlers of the sftpgo server,
with theorems settling the specification claims about them.

Go slices become `List`, machine integers become `Int`/`Nat`,
`time.Time` values become `Int` millisecond timestamps threaded
explicitly, fallible calls return `Option`/`Except`, and the package's
global mutable state (the scan registry, the open-connection map) is
passed as explicit state.
-/

namespace Sftpgo

/-- sftpd.ActiveQuotaScan: an active quota scan for a user home dir
(`src/unnamed/part_002`, sftpd.go). -/
structure ActiveQuotaScan where
  username : String
  startTime : Int
  deriving DecidableEq, Repr

/-- sftpd.ActiveVirtualFolderQuotaScan: an active quota scan for a
virtual folder (`src/unnamed/part_002`, sftpd.go).  The key field is
named `MappedPath` in the source. -/
structure ActiveVirtualFolderQuotaScan where
  mappedPath : String
  startTime : Int
  deriving DecidableEq, Repr

/-- sftpd.AddQuotaScan: adds a user to the ones with active quota scans;
returns false if the user has a quota scan already running.  The Go
function mutates the package-global `activeQuotaScans` slice under the
package mutex; here the slice is passed and returned explicitly, and the
start time `now` (Go: `utils.GetTimeAsMsSinceEpoch(time.Now())`) is a
parameter. -/
def AddQuotaScan (scans : List ActiveQuotaScan) (username : String) (now : Int) :
    Bool × List ActiveQuotaScan :=
  if scans.any (fun s => s.username == username) then
    (false, scans)
  else
    (true, scans ++ [{ username := username, startTime := now }])

/-- sftpd.AddVFolderQuotaScan: adds a virtual folder to the ones with
active quota scans; returns false if the folder has a quota scan already
running.  The entry is keyed on its `MappedPath` field, compared with the
`folderPath` argument. -/
def AddVFolderQuotaScan (scans : List ActiveVirtualFolderQuotaScan)
    (folderPath : String) (now : Int) : Bool × List ActiveVirtualFolderQuotaScan :=
  if scans.any (fun s => s.mappedPath == folderPath) then
    (false, scans)
  else
    (true, scans ++ [{ mappedPath := folderPath, startTime := now }])

/-- Index of the first element satisfying `p`, mirroring the
`for i, s := range …` search loops of `RemoveQuotaScan` /
`RemoveVFolderQuotaScan` (which break at the first match). -/
def firstIdx {α : Type} (p : α → Bool) : List α → Option Nat
  | [] => none
  | a :: l => if p a then some 0 else (firstIdx p l).map (· + 1)

/-- The swap-with-last removal used by both Remove functions:
`slice[indexToRemove] = slice[len-1]; slice = slice[:len-1]`. -/
def swapRemove {α : Type} (l : List α) (i : Nat) : List α :=
  match l.getLast? with
  | some last => (l.set i last).dropLast
  | none => l

/-- sftpd.RemoveQuotaScan: removes a user from the ones with active
quota scans; returns a non-nil error (modelled as `some message`) when no
scan is registered for the user. -/
def RemoveQuotaScan (scans : List ActiveQuotaScan) (username : String) :
    Option String × List ActiveQuotaScan :=
  match firstIdx (fun s => s.username == username) scans with
  | some i => (none, swapRemove scans i)
  | none => (some ("quota scan to remove not found for user: " ++ username), scans)

/-- sftpd.RemoveVFolderQuotaScan: removes a folder from the ones with
active quota scans; returns a non-nil error when no scan is registered
for the folder path. -/
def RemoveVFolderQuotaScan (scans : List ActiveVirtualFolderQuotaScan)
    (folderPath : String) : Option String × List ActiveVirtualFolderQuotaScan :=
  match firstIdx (fun s => s.mappedPath == folderPath) scans with
  | some i => (none, swapRemove scans i)
  | none => (some ("quota scan to remove not found for user: " ++ folderPath), scans)

/-- sftpd.GetQuotaScans: snapshot (copy) of the active user scans. -/
def GetQuotaScans (scans : List ActiveQuotaScan) : List ActiveQuotaScan :=
  scans

/-- sftpd.GetVFoldersQuotaScans: snapshot (copy) of the active folder scans. -/
def GetVFoldersQuotaScans (scans : List ActiveVirtualFolderQuotaScan) :
    List ActiveVirtualFolderQuotaScan :=
  scans

theorem AddQuotaScan_true (scans : List ActiveQuotaScan) (u : String) (now : Int)
    (h : ∀ s ∈ scans, s.username ≠ u) :
    AddQuotaScan scans u now = (true, scans ++ [⟨u, now⟩]) := by
  have hany : scans.any (fun s => s.username == u) = false := by
    simp only [List.any_eq_false, beq_iff_eq]
    exact h
  simp [AddQuotaScan, hany]

theorem AddQuotaScan_false (scans : List ActiveQuotaScan) (u : String) (now : Int)
    (h : ∃ s ∈ scans, s.username = u) :
    AddQuotaScan scans u now = (false, scans) := by
  have hany : scans.any (fun s => s.username == u) = true := by
    simp only [List.any_eq_true, beq_iff_eq]
    exact h
  simp [AddQuotaScan, hany]

theorem AddVFolderQuotaScan_true (scans : List ActiveVirtualFolderQuotaScan)
    (p : String) (now : Int) (h : ∀ s ∈ scans, s.mappedPath ≠ p) :
    AddVFolderQuotaScan scans p now = (true, scans ++ [⟨p, now⟩]) := by
  have hany : scans.any (fun s => s.mappedPath == p) = false := by
    simp only [List.any_eq_false, beq_iff_eq]
    exact h
  simp [AddVFolderQuotaScan, hany]

theorem AddVFolderQuotaScan_false (scans : List ActiveVirtualFolderQuotaScan)
    (p : String) (now : Int) (h : ∃ s ∈ scans, s.mappedPath = p) :
    AddVFolderQuotaScan scans p now = (false, scans) := by
  have hany : scans.any (fun s => s.mappedPath == p) = true := by
    simp only [List.any_eq_true, beq_iff_eq]
    exact h
  simp [AddVFolderQuotaScan, hany]

/-- C1: admission into the scan registry is per-key exclusive.
`AddQuotaScan` (keyed by username) and `AddVFolderQuotaScan` (keyed by
folder path) return `true` and append exactly one entry when no entry
with the same key is present, and return `false` leaving the registry
unchanged when a scan for the key is already registered.  In particular
both preserve key-uniqueness of the registry. -/
theorem addQuotaScan_admission :
    (∀ (scans : List ActiveQuotaScan) (u : String) (now : Int),
      ((∀ s ∈ scans, s.username ≠ u) →
        AddQuotaScan scans u now = (true, scans ++ [⟨u, now⟩])) ∧
      ((∃ s ∈ scans, s.username = u) →
        AddQuotaScan scans u now = (false, scans)) ∧
      (scans.Pairwise (fun a b => a.username ≠ b.username) →
        (AddQuotaScan scans u now).2.Pairwise (fun a b => a.username ≠ b.username))) ∧
    (∀ (scans : List ActiveVirtualFolderQuotaScan) (p : String) (now : Int),
      ((∀ s ∈ scans, s.mappedPath ≠ p) →
        AddVFolderQuotaScan scans p now = (true, scans ++ [⟨p, now⟩])) ∧
      ((∃ s ∈ scans, s.mappedPath = p) →
        AddVFolderQuotaScan scans p now = (false, scans)) ∧
      (scans.Pairwise (fun a b => a.mappedPath ≠ b.mappedPath) →
        (AddVFolderQuotaScan scans p now).2.Pairwise
          (fun a b => a.mappedPath ≠ b.mappedPath))) := by
  constructor
  · intro scans u now
    refine ⟨AddQuotaScan_true scans u now, AddQuotaScan_false scans u now, fun h => ?_⟩
    · by_cases hc : scans.any (fun s => s.username == u) = true
      · simpa [AddQuotaScan, hc] using h
      · have hne : ∀ s ∈ scans, s.username ≠ u := by
          simpa only [List.any_eq_true, beq_iff_eq, not_exists, not_and] using hc
        simp only [AddQuotaScan, hc, if_false, Bool.false_eq_true]
        refine List.pairwise_append.2 ⟨h, List.pairwise_singleton _ _, ?_⟩
        intro a ha b hb
        simp only [List.mem_singleton] at hb
        subst hb
        exact hne a ha
  · intro scans p now
    refine ⟨AddVFolderQuotaScan_true scans p now, AddVFolderQuotaScan_false scans p now,
      fun h => ?_⟩
    · by_cases hc : scans.any (fun s => s.mappedPath == p) = true
      · simpa [AddVFolderQuotaScan, hc] using h
      · have hne : ∀ s ∈ scans, s.mappedPath ≠ p := by
          simpa only [List.any_eq_true, beq_iff_eq, not_exists, not_and] using hc
        simp only [AddVFolderQuotaScan, hc, if_false, Bool.false_eq_true]
        refine List.pairwise_append.2 ⟨h, List.pairwise_singleton _ _, ?_⟩
        intro a ha b hb
        simp only [List.mem_singleton] at hb
        subst hb
        exact hne a ha

/-- Concrete instance of C1: a fresh user scan is admitted and appended;
a second admission for the same username is refused and leaves the
registry unchanged (likewise for folder scans, keyed by path). -/
theorem addQuotaScan_admission_witness :
    AddQuotaScan [⟨"u1", 10⟩] "u2" 20 = (true, [⟨"u1", 10⟩, ⟨"u2", 20⟩]) ∧
    AddQuotaScan [⟨"u1", 10⟩] "u1" 20 = (false, [⟨"u1", 10⟩]) ∧
    AddVFolderQuotaScan [⟨"/tmp/f1", 10⟩] "/tmp/f2" 20 =
      (true, [⟨"/tmp/f1", 10⟩, ⟨"/tmp/f2", 20⟩]) ∧
    AddVFolderQuotaScan [⟨"/tmp/f1", 10⟩] "/tmp/f1" 20 = (false, [⟨"/tmp/f1", 10⟩]) :=
  ⟨(addQuotaScan_admission.1 [⟨"u1", 10⟩] "u2" 20).1 (by decide),
   (addQuotaScan_admission.1 [⟨"u1", 10⟩] "u1" 20).2.1 ⟨⟨"u1", 10⟩, by simp, rfl⟩,
   (addQuotaScan_admission.2 [⟨"/tmp/f1", 10⟩] "/tmp/f2" 20).1 (by decide),
   (addQuotaScan_admission.2 [⟨"/tmp/f1", 10⟩] "/tmp/f1" 20).2.1
     ⟨⟨"/tmp/f1", 10⟩, by simp, rfl⟩⟩

theorem firstIdx_eq_none_iff {α : Type} (p : α → Bool) (l : List α) :
    firstIdx p l = none ↔ ∀ a ∈ l, p a = false := by
  induction l with
  | nil => simp [firstIdx]
  | cons a l ih =>
    by_cases hp : p a
    · simp [firstIdx, hp]
    · have hpf : p a = false := by simpa using hp
      simp [firstIdx, hpf, ih]

theorem firstIdx_eq_some {α : Type} (p : α → Bool) (l : List α) (i : Nat)
    (h : firstIdx p l = some i) : ∃ hlt : i < l.length, p (l.get ⟨i, hlt⟩) = true := by
  induction l generalizing i with
  | nil => simp [firstIdx] at h
  | cons a l ih =>
    by_cases hp : p a
    · simp [firstIdx, hp] at h
      rcases h with rfl | rfl
      all_goals exact ⟨by simp, by simpa using hp⟩
    · have hpf : p a = false := by simpa using hp
      simp [firstIdx, hpf] at h
      obtain ⟨j, hj, rfl⟩ := h
      obtain ⟨hlt, hget⟩ := ih j hj
      exact ⟨by simpa using Nat.succ_lt_succ hlt, by simpa using hget⟩

theorem swapRemove_concat_last {α : Type} (l : List α) (x : α) :
    swapRemove (l ++ [x]) l.length = l := by
  have hset : (l ++ [x]).set l.length x = l ++ [x] := by
    rw [List.set_append_right _ _ (Nat.le_refl _)]
    simp
  simp [swapRemove, List.getLast?_concat, hset]

theorem firstIdx_append_singleton {α : Type} (p : α → Bool) (l : List α) (x : α)
    (hl : ∀ a ∈ l, p a = false) (hx : p x = true) :
    firstIdx p (l ++ [x]) = some l.length := by
  induction l with
  | nil => simp [firstIdx, hx]
  | cons a l ih =>
    have ha : p a = false := hl a (by simp)
    have hl' : ∀ b ∈ l, p b = false := fun b hb => hl b (by simp [hb])
    simp [firstIdx, ha, ih hl']

theorem swapRemove_perm {α : Type} (l : List α) (i : Nat) (h : i < l.length) :
    (swapRemove l i).Perm (l.eraseIdx i) := by
  induction l using List.reverseRecOn with
  | nil => simp at h
  | append_singleton l' x _ =>
    have hlen : (l' ++ [x]).length = l'.length + 1 := by simp
    rw [hlen] at h
    have hle : i ≤ l'.length := Nat.lt_succ_iff.mp h
    rcases Nat.lt_or_ge i l'.length with hlt | hge
    · have hset : (l' ++ [x]).set i x = l'.set i x ++ [x] :=
        List.set_append_left i x hlt
      have hsw : swapRemove (l' ++ [x]) i = l'.set i x := by
        simp [swapRemove, List.getLast?_concat, hset]
      have herase : (l' ++ [x]).eraseIdx i =
          l'.take i ++ (l'.drop (i + 1) ++ [x]) := by
        rw [List.eraseIdx_eq_take_drop_succ,
          List.take_append_of_le_length (Nat.le_of_lt hlt),
          List.drop_append_of_le_length (Nat.succ_le_of_lt hlt)]
      rw [hsw, herase, List.set_eq_take_cons_drop x hlt]
      exact List.Perm.append_left _ (List.perm_append_singleton x _).symm
    · have hi : i = l'.length := Nat.le_antisymm hle hge
      subst hi
      have hset : (l' ++ [x]).set l'.length x = l' ++ [x] := by
        rw [List.set_append_right _ _ (Nat.le_refl _)]
        simp
      have hsw : swapRemove (l' ++ [x]) l'.length = l' := by
        simp [swapRemove, List.getLast?_concat, hset]
      have herase : (l' ++ [x]).eraseIdx l'.length = l' := by
        rw [List.eraseIdx_eq_take_drop_succ, List.take_left]
        simp
      rw [hsw, herase]

/-- C10: removing a scan for an unregistered key returns a non-nil error
and leaves the registry unchanged; removing a scan for a registered key
returns nil and removes exactly one entry, namely the (first) one whose
key matches.  Both `RemoveQuotaScan` (keyed by username) and
`RemoveVFolderQuotaScan` (keyed by folder path) behave this way. -/
theorem removeQuotaScan_spec :
    (∀ (scans : List ActiveQuotaScan) (u : String),
      ((∀ s ∈ scans, s.username ≠ u) →
        (RemoveQuotaScan scans u).1.isSome = true ∧
        (RemoveQuotaScan scans u).2 = scans) ∧
      ((∃ s ∈ scans, s.username = u) →
        (RemoveQuotaScan scans u).1 = none ∧
        ∃ i, ∃ hlt : i < scans.length, (scans.get ⟨i, hlt⟩).username = u ∧
          (RemoveQuotaScan scans u).2.Perm (scans.eraseIdx i))) ∧
    (∀ (scans : List ActiveVirtualFolderQuotaScan) (p : String),
      ((∀ s ∈ scans, s.mappedPath ≠ p) →
        (RemoveVFolderQuotaScan scans p).1.isSome = true ∧
        (RemoveVFolderQuotaScan scans p).2 = scans) ∧
      ((∃ s ∈ scans, s.mappedPath = p) →
        (RemoveVFolderQuotaScan scans p).1 = none ∧
        ∃ i, ∃ hlt : i < scans.length, (scans.get ⟨i, hlt⟩).mappedPath = p ∧
          (RemoveVFolderQuotaScan scans p).2.Perm (scans.eraseIdx i))) := by
  constructor
  · intro scans u
    constructor
    · intro h
      have hnone : firstIdx (fun s => s.username == u) scans = none := by
        rw [firstIdx_eq_none_iff]
        intro a ha
        simpa using h a ha
      simp [RemoveQuotaScan, hnone]
    · intro h
      cases hf : firstIdx (fun s => s.username == u) scans with
      | none =>
        rw [firstIdx_eq_none_iff] at hf
        obtain ⟨s, hs, hsu⟩ := h
        have := hf s hs
        simp [hsu] at this
      | some i =>
        obtain ⟨hlt, hget⟩ := firstIdx_eq_some _ _ _ hf
        refine ⟨by simp [RemoveQuotaScan, hf], i, hlt, by simpa using hget, ?_⟩
        simp only [RemoveQuotaScan, hf]
        exact swapRemove_perm scans i hlt
  · intro scans p
    constructor
    · intro h
      have hnone : firstIdx (fun s => s.mappedPath == p) scans = none := by
        rw [firstIdx_eq_none_iff]
        intro a ha
        simpa using h a ha
      simp [RemoveVFolderQuotaScan, hnone]
    · intro h
      cases hf : firstIdx (fun s => s.mappedPath == p) scans with
      | none =>
        rw [firstIdx_eq_none_iff] at hf
        obtain ⟨s, hs, hsp⟩ := h
        have := hf s hs
        simp [hsp] at this
      | some i =>
        obtain ⟨hlt, hget⟩ := firstIdx_eq_some _ _ _ hf
        refine ⟨by simp [RemoveVFolderQuotaScan, hf], i, hlt, by simpa using hget, ?_⟩
        simp only [RemoveVFolderQuotaScan, hf]
        exact swapRemove_perm scans i hlt

/-- Concrete instance of C10: removing an absent key fails and leaves the
registry unchanged; removing a present key succeeds and erases that
entry. -/
theorem removeQuotaScan_spec_witness :
    ((RemoveQuotaScan [⟨"u1", 1⟩, ⟨"u2", 2⟩] "u3").1.isSome = true ∧
      (RemoveQuotaScan [⟨"u1", 1⟩, ⟨"u2", 2⟩] "u3").2 = [⟨"u1", 1⟩, ⟨"u2", 2⟩]) ∧
    ((RemoveQuotaScan [⟨"u1", 1⟩, ⟨"u2", 2⟩] "u1").1 = none ∧
      ∃ i, ∃ hlt : i < ([⟨"u1", 1⟩, ⟨"u2", 2⟩] : List ActiveQuotaScan).length,
        (([⟨"u1", 1⟩, ⟨"u2", 2⟩] : List ActiveQuotaScan).get ⟨i, hlt⟩).username = "u1" ∧
        (RemoveQuotaScan [⟨"u1", 1⟩, ⟨"u2", 2⟩] "u1").2.Perm
          (([⟨"u1", 1⟩, ⟨"u2", 2⟩] : List ActiveQuotaScan).eraseIdx i)) ∧
    ((RemoveVFolderQuotaScan [⟨"/tmp/f1", 1⟩] "/tmp/f2").1.isSome = true ∧
      (RemoveVFolderQuotaScan [⟨"/tmp/f1", 1⟩] "/tmp/f2").2 = [⟨"/tmp/f1", 1⟩]) ∧
    ((RemoveVFolderQuotaScan [⟨"/tmp/f1", 1⟩] "/tmp/f1").1 = none ∧
      ∃ i, ∃ hlt : i < ([⟨"/tmp/f1", 1⟩] : List ActiveVirtualFolderQuotaScan).length,
        (([⟨"/tmp/f1", 1⟩] : List ActiveVirtualFolderQuotaScan).get ⟨i, hlt⟩).mappedPath = "/tmp/f1" ∧
        (RemoveVFolderQuotaScan [⟨"/tmp/f1", 1⟩] "/tmp/f1").2.Perm
          (([⟨"/tmp/f1", 1⟩] : List ActiveVirtualFolderQuotaScan).eraseIdx i)) :=
  ⟨(removeQuotaScan_spec.1 [⟨"u1", 1⟩, ⟨"u2", 2⟩] "u3").1 (by decide),
   (removeQuotaScan_spec.1 [⟨"u1", 1⟩, ⟨"u2", 2⟩] "u1").2 ⟨⟨"u1", 1⟩, by simp, rfl⟩,
   (removeQuotaScan_spec.2 [⟨"/tmp/f1", 1⟩] "/tmp/f2").1 (by decide),
   (removeQuotaScan_spec.2 [⟨"/tmp/f1", 1⟩] "/tmp/f1").2 ⟨⟨"/tmp/f1", 1⟩, by simp, rfl⟩⟩

/-! ## SSH commands configuration (sftpd/server.go, sftpd.go) -/

/-- sftpd package variable `supportedSSHCommands` (sftpd.go). -/
def supportedSSHCommands : List String :=
  ["scp", "md5sum", "sha1sum", "sha256sum", "sha384sum", "sha512sum", "cd", "pwd",
   "git-receive-pack", "git-upload-pack", "git-upload-archive", "rsync",
   "sftpgo-copy", "sftpgo-remove"]

/-- sftpd package variable `defaultSSHCommands` (sftpd.go). -/
def defaultSSHCommands : List String := ["md5sum", "sha1sum", "cd", "pwd", "scp"]

/-- Modelled from the spec: utils.IsStringInSlice — the `utils` package is
not under src/; this is the linear membership test its name and call
sites denote. -/
def IsStringInSlice (s : String) (l : List String) : Bool :=
  l.any (· == s)

/-- sftpd.GetSupportedSSHCommands: a copy of `supportedSSHCommands`. -/
def GetSupportedSSHCommands : List String := supportedSSHCommands

/-- Configuration.checkSSHCommands (sftpd/server.go): a configured `"*"`
expands to the full supported set; otherwise unsupported configured
commands are dropped (with a warning) and the supported ones are kept in
configuration order. -/
def checkSSHCommands (enabledSSHCommands : List String) : List String :=
  if IsStringInSlice "*" enabledSSHCommands then
    GetSupportedSSHCommands
  else
    enabledSSHCommands.filter (fun command => IsStringInSlice command supportedSSHCommands)

/-- C9: the enabled-SSH-commands check expands a configured `"*"` to
exactly the fourteen supported commands, otherwise keeps precisely the
configured commands that are supported, in configuration order; the
default set is `md5sum, sha1sum, cd, pwd, scp`. -/
theorem checkSSHCommands_spec :
    (∀ enabled : List String, "*" ∈ enabled →
      checkSSHCommands enabled =
        ["scp", "md5sum", "sha1sum", "sha256sum", "sha384sum", "sha512sum", "cd", "pwd",
         "git-receive-pack", "git-upload-pack", "git-upload-archive", "rsync",
         "sftpgo-copy", "sftpgo-remove"]) ∧
    (∀ enabled : List String, "*" ∉ enabled →
      checkSSHCommands enabled =
        enabled.filter (fun c => decide (c ∈ supportedSSHCommands))) ∧
    defaultSSHCommands = ["md5sum", "sha1sum", "cd", "pwd", "scp"] := by
  refine ⟨fun enabled h => ?_, fun enabled h => ?_, rfl⟩
  · have hstar : IsStringInSlice "*" enabled = true := by
      simp only [IsStringInSlice, List.any_eq_true, beq_iff_eq]
      exact ⟨"*", h, rfl⟩
    simp [checkSSHCommands, hstar, GetSupportedSSHCommands, supportedSSHCommands]
  · have hstar : IsStringInSlice "*" enabled = false := by
      simp only [IsStringInSlice, List.any_eq_false, beq_iff_eq]
      intro a ha hae
      exact h (hae ▸ ha)
    rw [checkSSHCommands, hstar]
    simp only [Bool.false_eq_true, if_false]
    apply List.filter_congr
    intro c _
    by_cases hm : c ∈ supportedSSHCommands
    · have hany : supportedSSHCommands.any (fun x => x == c) = true := by
        simp only [List.any_eq_true, beq_iff_eq]
        exact ⟨c, hm, rfl⟩
      simp [IsStringInSlice, hm, hany]
    · have hany : supportedSSHCommands.any (fun x => x == c) = false := by
        simp only [List.any_eq_false, beq_iff_eq]
        intro a ha hac
        exact hm (hac ▸ ha)
      simp [IsStringInSlice, hm, hany]

/-- Concrete instance of C9: a list containing `"*"` expands to the full
supported set, and an unsupported command is dropped while supported
ones are kept in order. -/
theorem checkSSHCommands_spec_witness :
    checkSSHCommands ["md5sum", "*"] =
      ["scp", "md5sum", "sha1sum", "sha256sum", "sha384sum", "sha512sum", "cd", "pwd",
       "git-receive-pack", "git-upload-pack", "git-upload-archive", "rsync",
       "sftpgo-copy", "sftpgo-remove"] ∧
    checkSSHCommands ["scp", "bogus", "cd"] =
      (["scp", "bogus", "cd"] : List String).filter
        (fun c => decide (c ∈ supportedSSHCommands)) :=
  ⟨checkSSHCommands_spec.1 ["md5sum", "*"] (by decide),
   checkSSHCommands_spec.2.1 ["scp", "bogus", "cd"] (by decide)⟩

/-! ## SSH channel acceptance (Configuration.AcceptInboundConnection,
sftpd/server.go) -/

/-- The decision taken for one incoming SSH channel-open request:
non-"session" channels are rejected (with an `ssh.UnknownChannelType`
reason string) and skipped; "session" channels are accepted and their
requests handled. -/
inductive ChannelDecision where
  | reject (reason : String)
  | acceptSession
  deriving DecidableEq, Repr

/-- The channel-type dispatch in the `for newChannel := range chans` loop
of AcceptInboundConnection. -/
def handleChannelOpen (channelType : String) : ChannelDecision :=
  if channelType ≠ "session" then
    ChannelDecision.reject "unknown channel type"
  else
    ChannelDecision.acceptSession

/-- The `ok` reply computed for one request on an accepted session
channel: `subsystem` requests succeed exactly when the payload names
`sftp` (attaching the SFTP handler), `exec` requests return the result
of `processSSHCommand`, every other request type is answered
`ok = false`. -/
def sessionRequestReply (reqType : String) (subsystemPayload : String)
    (execDispatchOk : Bool) : Bool :=
  match reqType with
  | "subsystem" => subsystemPayload == "sftp"
  | "exec" => execDispatchOk
  | _ => false

/-- C7: every channel whose type is not "session" is rejected with
reason "unknown channel type" and gets no handler; "session" channels
are accepted, and on them a `subsystem sftp` request attaches the SFTP
handler (reply `ok = true`), an `exec` request is dispatched to the SSH
command processor, and any other request type is refused. -/
theorem acceptInboundConnection_channels :
    (∀ t : String, t ≠ "session" →
      handleChannelOpen t = ChannelDecision.reject "unknown channel type") ∧
    handleChannelOpen "session" = ChannelDecision.acceptSession ∧
    (∀ b : Bool, sessionRequestReply "subsystem" "sftp" b = true) ∧
    (∀ (s : String) (b : Bool), sessionRequestReply "exec" s b = b) ∧
    (∀ (t s : String) (b : Bool), t ≠ "subsystem" → t ≠ "exec" →
      sessionRequestReply t s b = false) := by
  refine ⟨fun t h => ?_, by simp [handleChannelOpen], fun b => by simp [sessionRequestReply],
    fun s b => rfl, fun t s b h1 h2 => ?_⟩
  · simp [handleChannelOpen, h]
  · unfold sessionRequestReply
    split
    · exact absurd rfl h1
    · exact absurd rfl h2
    · rfl

/-- Concrete instance of C7: a "direct-tcpip" channel is rejected with
"unknown channel type", a "session" channel is accepted, and on it a
`shell` request is refused. -/
theorem acceptInboundConnection_channels_witness :
    handleChannelOpen "direct-tcpip" = ChannelDecision.reject "unknown channel type" ∧
    handleChannelOpen "session" = ChannelDecision.acceptSession ∧
    sessionRequestReply "shell" "" true = false :=
  ⟨acceptInboundConnection_channels.1 "direct-tcpip" (by decide),
   acceptInboundConnection_channels.2.1,
   acceptInboundConnection_channels.2.2.2.2 "shell" "" true (by decide) (by decide)⟩

/-! ## Connections, transfers and the idle sweeper (sftpd.go) -/

/-- Transfer type constants.  Modelled from the spec: the const block of
transfer.go is not under src/; the tests use `transferUpload` and
`transferDownload` as the two transfer types (upload first), so they are
embedded as 0 and 1. -/
def transferUpload : Nat := 0

/-- The download transfer type; see `transferUpload`. -/
def transferDownload : Nat := 1

/-- Upload mode constants (sftpd.go `iota` block). -/
def uploadModeStandard : Nat := 0

/-- Atomic upload mode (sftpd.go). -/
def uploadModeAtomic : Nat := 1

/-- Atomic upload mode with resume support (sftpd.go). -/
def uploadModeAtomicWithResume : Nat := 2

/-- sftpd.isAtomicUploadEnabled (sftpd.go). -/
def isAtomicUploadEnabled (uploadMode : Nat) : Bool :=
  uploadMode == uploadModeAtomic || uploadMode == uploadModeAtomicWithResume

/-- The fields of sftpd.Transfer used in this development, with
timestamps as integer milliseconds.  `file` is the path of the open file
handle (the staging path under atomic upload modes), `path` the target
path.  The handle itself, start time, user snapshot, protocol tag and
mutex of the Go struct are elided. -/
structure Transfer where
  file : String
  path : String
  connectionID : String
  transferType : Nat
  lastActivity : Int
  bytesSent : Int
  bytesReceived : Int
  isNewFile : Bool
  initialSize : Int
  minWriteOffset : Int
  transferError : Option String
  isFinished : Bool
  deriving DecidableEq, Repr

/-- The fields of sftpd.Connection read by the registry and the idle
sweeper: its identifier and its last-activity timestamp (integer
milliseconds).  The user snapshot, network connection, channel and
filesystem binding are elided. -/
structure Connection where
  id : String
  lastActivity : Int
  deriving DecidableEq, Repr

/-- The idle-time computation of CheckIdleConnections for one
connection: start from `now - c.lastActivity`, then lower it to
`now - t.lastActivity` for every active transfer `t` of the same
connection whose idle time is smaller. -/
def connIdleTime (now : Int) (c : Connection) (transfers : List Transfer) : Int :=
  transfers.foldl
    (fun idleTime t =>
      if t.connectionID == c.id then
        (if now - t.lastActivity < idleTime then now - t.lastActivity else idleTime)
      else idleTime)
    (now - c.lastActivity)

/-- sftpd.CheckIdleConnections: disconnects clients idle for too long;
returns the connections that get closed. -/
def CheckIdleConnections (now idleTimeout : Int) (openConnections : List Connection)
    (activeTransfers : List Transfer) : List Connection :=
  openConnections.filter
    (fun c => decide (connIdleTime now c activeTransfers > idleTimeout))

/-- startIdleTimer's sweep period (sftpd.go: `time.Tick(5 * time.Minute)`),
in milliseconds. -/
def idleTimerTickMillis : Int := 5 * 60 * 1000

/-- The most recent activity associated with a connection: the later of
the session's own `lastActivity` and the `lastActivity` of every active
transfer whose `connectionID` matches it. -/
def lastActivityOf (c : Connection) (transfers : List Transfer) : Int :=
  transfers.foldl
    (fun acc t => if t.connectionID == c.id then max acc t.lastActivity else acc)
    c.lastActivity

theorem connIdleTime_eq_sub_lastActivityOf (now : Int) (c : Connection)
    (transfers : List Transfer) :
    connIdleTime now c transfers = now - lastActivityOf c transfers := by
  suffices h : ∀ (l : List Transfer) (a : Int),
      l.foldl
        (fun idleTime t =>
          if t.connectionID == c.id then
            (if now - t.lastActivity < idleTime then now - t.lastActivity else idleTime)
          else idleTime)
        (now - a)
      = now - l.foldl
          (fun acc t => if t.connectionID == c.id then max acc t.lastActivity else acc) a by
    exact h transfers c.lastActivity
  intro l
  induction l with
  | nil => intro a; rfl
  | cons t l ih =>
    intro a
    by_cases hm : (t.connectionID == c.id) = true
    · simp only [List.foldl_cons, hm, if_true]
      rw [← ih (max a t.lastActivity)]
      congr 1
      rcases le_or_lt t.lastActivity a with hle | hlt
      · rw [max_eq_left hle, if_neg (by omega)]
      · rw [max_eq_right (le_of_lt hlt), if_pos (by omega)]
    · simp only [List.foldl_cons, hm]
      exact ih a

/-- C5: the idle sweeper wakes every 5 minutes, and a pass closes a
registered connection exactly when the time since its most recent
activity — the later of the session's `lastActivity` and the
`lastActivity` of every active transfer with a matching `connectionID` —
strictly exceeds the configured idle timeout. -/
theorem checkIdleConnections_spec :
    idleTimerTickMillis = 300000 ∧
    ∀ (now idleTimeout : Int) (conns : List Connection) (transfers : List Transfer)
      (c : Connection), c ∈ conns →
      (c ∈ CheckIdleConnections now idleTimeout conns transfers ↔
        now - lastActivityOf c transfers > idleTimeout) := by
  refine ⟨rfl, fun now idleTimeout conns transfers c hc => ?_⟩
  rw [CheckIdleConnections]
  constructor
  · intro hmem
    have := (List.mem_filter.1 hmem).2
    rw [decide_eq_true_iff, connIdleTime_eq_sub_lastActivityOf] at this
    exact this
  · intro hidle
    refine List.mem_filter.2 ⟨hc, ?_⟩
    rw [decide_eq_true_iff, connIdleTime_eq_sub_lastActivityOf]
    exact hidle

/-- Concrete instance of C5: with `now = 1000000` and a 100000 ms
timeout, a connection whose own activity is old but which has a recent
transfer is kept; once the transfer activity is also old, the connection
is closed. -/
theorem checkIdleConnections_spec_witness :
    idleTimerTickMillis = 300000 ∧
    ¬(⟨"c1", 800000⟩ : Connection) ∈
      CheckIdleConnections 1000000 100000 [⟨"c1", 800000⟩]
        [⟨"/tmp/f", "/tmp/f", "c1", 0, 950000, 0, 0, true, 0, 0, none, false⟩] ∧
    (⟨"c2", 800000⟩ : Connection) ∈
      CheckIdleConnections 1000000 100000 [⟨"c2", 800000⟩]
        [⟨"/tmp/f", "/tmp/f", "other", 0, 950000, 0, 0, true, 0, 0, none, false⟩] := by
  refine ⟨checkIdleConnections_spec.1, ?_, ?_⟩
  · rw [checkIdleConnections_spec.2 1000000 100000 _ _ _ (by decide)]
    decide
  · rw [checkIdleConnections_spec.2 1000000 100000 _ _ _ (by decide)]
    decide

/-! ## HTTP quota handlers (httpd/api_quota.go) -/

/-- net/http.StatusOK. -/
def StatusOK : Nat := 200

/-- net/http.StatusCreated. -/
def StatusCreated : Nat := 201

/-- net/http.StatusAccepted. -/
def StatusAccepted : Nat := 202

/-- net/http.StatusBadRequest. -/
def StatusBadRequest : Nat := 400

/-- net/http.StatusForbidden. -/
def StatusForbidden : Nat := 403

/-- net/http.StatusConflict. -/
def StatusConflict : Nat := 409

/-- The (status, message) pair a handler passes to sendAPIResponse,
which writes them to the HTTP response. -/
structure ApiResponse where
  status : Nat
  message : String
  deriving DecidableEq, Repr

/-- The fields of dataprovider.User read by the quota handlers.
`hasQuotaRestrictions` stands for the value of the
User.HasQuotaRestrictions() predicate of the dataprovider package (not
under src/). -/
structure User where
  username : String
  hasQuotaRestrictions : Bool
  deriving DecidableEq, Repr

/-- The fields of vfs.BaseVirtualFolder used by the quota handlers: the
folder's name and its mapped (host) path. -/
structure BaseVirtualFolder where
  name : String
  mappedPath : String
  deriving DecidableEq, Repr

/-- One dataprovider.UpdateUserQuota / UpdateVirtualFolderQuota
invocation: the (files, size) arguments and the reset flag. -/
structure QuotaUpdateCall where
  files : Int
  size : Int
  reset : Bool
  deriving DecidableEq, Repr

/-- httpd constant quotaUpdateModeAdd. -/
def quotaUpdateModeAdd : String := "add"

/-- httpd constant quotaUpdateModeReset. -/
def quotaUpdateModeReset : String := "reset"

/-- httpd.getQuotaUpdateMode: the `mode` query parameter defaults to
"reset" when absent; when present it must be "reset" or "add". -/
def getQuotaUpdateMode (modeQuery : Option String) : Except String String :=
  match modeQuery with
  | none => Except.ok quotaUpdateModeReset
  | some m =>
    if m ≠ quotaUpdateModeReset ∧ m ≠ quotaUpdateModeAdd then Except.error "Invalid mode"
    else Except.ok m

/-- httpd.startQuotaScan (POST user quota-scan).  `quotaTracking` is the
value of dataprovider.GetQuotaTracking(), `body` the username of the
decoded request body (`none` models a JSON decode failure), `userExists`
the dataprovider.UserExists lookup and `errStatus` the getRespStatus
translation (dataprovider and the response helpers are outside src/).
Returns the API response, whether a scan goroutine was started, and the
scan registry after the handler returns. -/
def startQuotaScan (quotaTracking : Nat) (body : Option String)
    (userExists : String → Except String User) (errStatus : String → Nat)
    (scans : List ActiveQuotaScan) (now : Int) :
    ApiResponse × Bool × List ActiveQuotaScan :=
  if quotaTracking == 0 then
    (⟨StatusForbidden, "Quota tracking is disabled!"⟩, false, scans)
  else
    match body with
    | none => (⟨StatusBadRequest, ""⟩, false, scans)
    | some username =>
      match userExists username with
      | Except.error e => (⟨errStatus e, ""⟩, false, scans)
      | Except.ok user =>
        let r := AddQuotaScan scans user.username now
        if r.1 then (⟨StatusCreated, "Scan started"⟩, true, r.2)
        else (⟨StatusConflict, "Another scan is already in progress"⟩, false, r.2)

/-- httpd.startVFolderQuotaScan (POST folder quota-scan).  `body` is the
MappedPath of the decoded request body and `getFolderByPath` the
dataprovider.GetFolderByPath lookup. -/
def startVFolderQuotaScan (quotaTracking : Nat) (body : Option String)
    (getFolderByPath : String → Except String BaseVirtualFolder)
    (errStatus : String → Nat) (scans : List ActiveVirtualFolderQuotaScan)
    (now : Int) : ApiResponse × Bool × List ActiveVirtualFolderQuotaScan :=
  if quotaTracking == 0 then
    (⟨StatusForbidden, "Quota tracking is disabled!"⟩, false, scans)
  else
    match body with
    | none => (⟨StatusBadRequest, ""⟩, false, scans)
    | some mappedPath =>
      match getFolderByPath mappedPath with
      | Except.error e => (⟨errStatus e, ""⟩, false, scans)
      | Except.ok folder =>
        let r := AddVFolderQuotaScan scans folder.mappedPath now
        if r.1 then (⟨StatusCreated, "Scan started"⟩, true, r.2)
        else (⟨StatusConflict, "Another scan is already in progress"⟩, false, r.2)

/-- httpd.doQuotaScan: scans a user's home directory and stores the
totals.  `getFilesystem` models user.GetFilesystem("") and
`scanRootDirContents` the (files, bytes) walk of fs.ScanRootDirContents
(the vfs package is outside src/).  Returns the provider update invoked,
if any, and the scan registry after the deferred RemoveQuotaScan. -/
def doQuotaScan (user : User) (getFilesystem : Except String Unit)
    (scanRootDirContents : Except String (Int × Int))
    (scans : List ActiveQuotaScan) : Option QuotaUpdateCall × List ActiveQuotaScan :=
  let scansAfter := (RemoveQuotaScan scans user.username).2
  match getFilesystem with
  | Except.error _ => (none, scansAfter)
  | Except.ok _ =>
    match scanRootDirContents with
    | Except.error _ => (none, scansAfter)
    | Except.ok (numFiles, size) => (some ⟨numFiles, size, true⟩, scansAfter)

/-- httpd.doFolderQuotaScan: scans a folder's mapped path via
vfs.OsFs.GetDirSize and stores the totals; the deferred
RemoveVFolderQuotaScan is keyed by the folder's MappedPath. -/
def doFolderQuotaScan (folder : BaseVirtualFolder)
    (getDirSize : Except String (Int × Int))
    (scans : List ActiveVirtualFolderQuotaScan) :
    Option QuotaUpdateCall × List ActiveVirtualFolderQuotaScan :=
  let scansAfter := (RemoveVFolderQuotaScan scans folder.mappedPath).2
  match getDirSize with
  | Except.error _ => (none, scansAfter)
  | Except.ok (numFiles, size) => (some ⟨numFiles, size, true⟩, scansAfter)

/-- httpd.updateUserQuotaUsage (PUT user quota-usage).  `body` is the
decoded (Username, UsedQuotaFiles, UsedQuotaSize) triple, `modeQuery`
the raw `mode` query parameter, `updateResult` the outcome of
dataprovider.UpdateUserQuota.  Returns the API response, the provider
update invoked (if any), and the scan registry after the handler
returns. -/
def updateUserQuotaUsage (body : Option (String × Int × Int))
    (modeQuery : Option String) (userExists : String → Except String User)
    (quotaTracking : Nat) (errStatus : String → Nat)
    (scans : List ActiveQuotaScan) (now : Int) (updateResult : Option String) :
    ApiResponse × Option QuotaUpdateCall × List ActiveQuotaScan :=
  match body with
  | none => (⟨StatusBadRequest, ""⟩, none, scans)
  | some (username, usedQuotaFiles, usedQuotaSize) =>
    if usedQuotaFiles < 0 ∨ usedQuotaSize < 0 then
      (⟨StatusBadRequest, "Invalid used quota parameters, negative values are not allowed"⟩,
        none, scans)
    else
      match getQuotaUpdateMode modeQuery with
      | Except.error _ => (⟨StatusBadRequest, ""⟩, none, scans)
      | Except.ok mode =>
        match userExists username with
        | Except.error e => (⟨errStatus e, ""⟩, none, scans)
        | Except.ok user =>
          if mode == quotaUpdateModeAdd ∧ user.hasQuotaRestrictions = false ∧
              quotaTracking == 2 then
            (⟨StatusBadRequest,
              "this user has no quota restrictions, only reset mode is supported"⟩,
              none, scans)
          else
            let r := AddQuotaScan scans user.username now
            if r.1 = false then
              (⟨StatusConflict, "A quota scan is in progress for this user"⟩, none, scans)
            else
              let call : QuotaUpdateCall :=
                ⟨usedQuotaFiles, usedQuotaSize, mode == quotaUpdateModeReset⟩
              let scansAfter := (RemoveQuotaScan r.2 user.username).2
              match updateResult with
              | some e => (⟨errStatus e, ""⟩, some call, scansAfter)
              | none => (⟨StatusOK, "Quota updated"⟩, some call, scansAfter)

/-- httpd.updateVFolderQuotaUsage (PUT folder quota-usage): like the user
variant, with the folder looked up by its MappedPath and the scan
registry keyed by the folder's MappedPath. -/
def updateVFolderQuotaUsage (body : Option (String × Int × Int))
    (modeQuery : Option String)
    (getFolderByPath : String → Except String BaseVirtualFolder)
    (errStatus : String → Nat) (scans : List ActiveVirtualFolderQuotaScan)
    (now : Int) (updateResult : Option String) :
    ApiResponse × Option QuotaUpdateCall × List ActiveVirtualFolderQuotaScan :=
  match body with
  | none => (⟨StatusBadRequest, ""⟩, none, scans)
  | some (mappedPath, usedQuotaFiles, usedQuotaSize) =>
    if usedQuotaFiles < 0 ∨ usedQuotaSize < 0 then
      (⟨StatusBadRequest, "Invalid used quota parameters, negative values are not allowed"⟩,
        none, scans)
    else
      match getQuotaUpdateMode modeQuery with
      | Except.error _ => (⟨StatusBadRequest, ""⟩, none, scans)
      | Except.ok mode =>
        match getFolderByPath mappedPath with
        | Except.error e => (⟨errStatus e, ""⟩, none, scans)
        | Except.ok folder =>
          let r := AddVFolderQuotaScan scans folder.mappedPath now
          if r.1 = false then
            (⟨StatusConflict, "A quota scan is in progress for this folder"⟩, none, scans)
          else
            let call : QuotaUpdateCall :=
              ⟨usedQuotaFiles, usedQuotaSize, mode == quotaUpdateModeReset⟩
            let scansAfter := (RemoveVFolderQuotaScan r.2 folder.mappedPath).2
            match updateResult with
            | some e => (⟨errStatus e, ""⟩, some call, scansAfter)
            | none => (⟨StatusOK, "Quota updated"⟩, some call, scansAfter)

/-- C2 (counterexample to the claimed 202): admitting a user quota scan
through the POST handler starts the scan but answers with status 201
(http.StatusCreated), not 202 (http.StatusAccepted). -/
theorem startQuotaScan_not202 :
    (startQuotaScan 1 (some "u1") (fun u => Except.ok ⟨u, true⟩) (fun _ => 500) [] 0).2.1
      = true ∧
    (startQuotaScan 1 (some "u1") (fun u => Except.ok ⟨u, true⟩) (fun _ => 500) [] 0).1.status
      = 201 ∧
    ¬(startQuotaScan 1 (some "u1") (fun u => Except.ok ⟨u, true⟩) (fun _ => 500) [] 0).1.status
      = StatusAccepted := by
  decide

/-- C2 (as amended): for every POST quota-scan request (user or folder
variant) naming an existing user or folder, with quota tracking enabled:
when no scan is registered for the key a scan is started and the
response status is 201 Created; when a scan is already running for the
key no scan is started, the registry is unchanged and the response
status is 409 Conflict. -/
theorem startQuotaScan_statuses :
    (∀ (tracking : Nat) (username : String)
      (userExists : String → Except String User) (user : User)
      (errStatus : String → Nat) (scans : List ActiveQuotaScan) (now : Int),
      tracking ≠ 0 → userExists username = Except.ok user →
      ((∀ s ∈ scans, s.username ≠ user.username) →
        startQuotaScan tracking (some username) userExists errStatus scans now =
          (⟨StatusCreated, "Scan started"⟩, true, scans ++ [⟨user.username, now⟩])) ∧
      ((∃ s ∈ scans, s.username = user.username) →
        startQuotaScan tracking (some username) userExists errStatus scans now =
          (⟨StatusConflict, "Another scan is already in progress"⟩, false, scans))) ∧
    (∀ (tracking : Nat) (mappedPath : String)
      (getFolderByPath : String → Except String BaseVirtualFolder)
      (folder : BaseVirtualFolder) (errStatus : String → Nat)
      (scans : List ActiveVirtualFolderQuotaScan) (now : Int),
      tracking ≠ 0 → getFolderByPath mappedPath = Except.ok folder →
      ((∀ s ∈ scans, s.mappedPath ≠ folder.mappedPath) →
        startVFolderQuotaScan tracking (some mappedPath) getFolderByPath errStatus scans now =
          (⟨StatusCreated, "Scan started"⟩, true, scans ++ [⟨folder.mappedPath, now⟩])) ∧
      ((∃ s ∈ scans, s.mappedPath = folder.mappedPath) →
        startVFolderQuotaScan tracking (some mappedPath) getFolderByPath errStatus scans now =
          (⟨StatusConflict, "Another scan is already in progress"⟩, false, scans))) := by
  constructor
  · intro tracking username userExists user errStatus scans now htr hlook
    have h0 : (tracking == 0) = false := by simpa using htr
    constructor
    · intro h
      have hadd := AddQuotaScan_true scans user.username now h
      simp [startQuotaScan, h0, hlook, hadd]
    · intro h
      have hadd := AddQuotaScan_false scans user.username now h
      simp [startQuotaScan, h0, hlook, hadd]
  · intro tracking mappedPath getFolderByPath folder errStatus scans now htr hlook
    have h0 : (tracking == 0) = false := by simpa using htr
    constructor
    · intro h
      have hadd := AddVFolderQuotaScan_true scans folder.mappedPath now h
      simp [startVFolderQuotaScan, h0, hlook, hadd]
    · intro h
      have hadd := AddVFolderQuotaScan_false scans folder.mappedPath now h
      simp [startVFolderQuotaScan, h0, hlook, hadd]

/-- Concrete instance of the amended C2: the first admission for "u1"
answers 201 and registers the scan, a second request while it is
registered answers 409 and changes nothing. -/
theorem startQuotaScan_statuses_witness :
    startQuotaScan 1 (some "u1") (fun u => Except.ok ⟨u, true⟩) (fun _ => 500) [] 9 =
      (⟨StatusCreated, "Scan started"⟩, true, [⟨"u1", 9⟩]) ∧
    startQuotaScan 1 (some "u1") (fun u => Except.ok ⟨u, true⟩) (fun _ => 500) [⟨"u1", 9⟩] 11 =
      (⟨StatusConflict, "Another scan is already in progress"⟩, false, [⟨"u1", 9⟩]) ∧
    startVFolderQuotaScan 1 (some "/tmp/m") (fun p => Except.ok ⟨"f1", p⟩) (fun _ => 500)
        [] 9 =
      (⟨StatusCreated, "Scan started"⟩, true, [⟨"/tmp/m", 9⟩]) ∧
    startVFolderQuotaScan 1 (some "/tmp/m") (fun p => Except.ok ⟨"f1", p⟩) (fun _ => 500)
        [⟨"/tmp/m", 9⟩] 11 =
      (⟨StatusConflict, "Another scan is already in progress"⟩, false, [⟨"/tmp/m", 9⟩]) :=
  ⟨((startQuotaScan_statuses.1 1 "u1" (fun u => Except.ok ⟨u, true⟩) ⟨"u1", true⟩
      (fun _ => 500) [] 9) (by decide) rfl).1 (by decide),
   ((startQuotaScan_statuses.1 1 "u1" (fun u => Except.ok ⟨u, true⟩) ⟨"u1", true⟩
      (fun _ => 500) [⟨"u1", 9⟩] 11) (by decide) rfl).2 ⟨⟨"u1", 9⟩, by simp, rfl⟩,
   ((startQuotaScan_statuses.2 1 "/tmp/m" (fun p => Except.ok ⟨"f1", p⟩) ⟨"f1", "/tmp/m"⟩
      (fun _ => 500) [] 9) (by decide) rfl).1 (by decide),
   ((startQuotaScan_statuses.2 1 "/tmp/m" (fun p => Except.ok ⟨"f1", p⟩) ⟨"f1", "/tmp/m"⟩
      (fun _ => 500) [⟨"/tmp/m", 9⟩] 11) (by decide) rfl).2 ⟨⟨"/tmp/m", 9⟩, by simp, rfl⟩⟩

/-- C4: both quota scans store the walked totals in reset mode — a
successful walk leads to a Data Provider update carrying exactly the
scanned (files, bytes) with reset = true, and every update either scan
ever issues has reset = true with the scanned values. -/
theorem doQuotaScan_reset :
    (∀ (user : User) (getFs : Except String Unit) (scan : Except String (Int × Int))
      (scans : List ActiveQuotaScan) (numFiles size : Int),
      getFs = Except.ok () → scan = Except.ok (numFiles, size) →
      (doQuotaScan user getFs scan scans).1 = some ⟨numFiles, size, true⟩) ∧
    (∀ (user : User) (getFs : Except String Unit) (scan : Except String (Int × Int))
      (scans : List ActiveQuotaScan) (call : QuotaUpdateCall),
      (doQuotaScan user getFs scan scans).1 = some call →
      ∃ numFiles size, scan = Except.ok (numFiles, size) ∧ call = ⟨numFiles, size, true⟩) ∧
    (∀ (folder : BaseVirtualFolder) (getDirSize : Except String (Int × Int))
      (scans : List ActiveVirtualFolderQuotaScan) (numFiles size : Int),
      getDirSize = Except.ok (numFiles, size) →
      (doFolderQuotaScan folder getDirSize scans).1 = some ⟨numFiles, size, true⟩) ∧
    (∀ (folder : BaseVirtualFolder) (getDirSize : Except String (Int × Int))
      (scans : List ActiveVirtualFolderQuotaScan) (call : QuotaUpdateCall),
      (doFolderQuotaScan folder getDirSize scans).1 = some call →
      ∃ numFiles size, getDirSize = Except.ok (numFiles, size) ∧
        call = ⟨numFiles, size, true⟩) := by
  refine ⟨fun user getFs scan scans nf sz hfs hscan => ?_,
    fun user getFs scan scans call h => ?_,
    fun folder getDirSize scans nf sz hscan => ?_,
    fun folder getDirSize scans call h => ?_⟩
  · subst hfs; subst hscan; rfl
  · match getFs with
    | Except.error e => simp [doQuotaScan] at h
    | Except.ok _ =>
      match hs : scan with
      | Except.error e => simp [doQuotaScan] at h
      | Except.ok (nf, sz) =>
        simp [doQuotaScan] at h
        exact ⟨nf, sz, rfl, h.symm⟩
  · subst hscan; rfl
  · match hs : getDirSize with
    | Except.error e => simp [doFolderQuotaScan] at h
    | Except.ok (nf, sz) =>
      simp [doFolderQuotaScan] at h
      exact ⟨nf, sz, rfl, h.symm⟩

/-- Concrete instance of C4: a user scan that walked 3 files / 1024
bytes updates the provider with (3, 1024, reset = true); likewise for a
folder scan with (2, 512). -/
theorem doQuotaScan_reset_witness :
    (doQuotaScan ⟨"u1", true⟩ (Except.ok ()) (Except.ok (3, 1024)) [⟨"u1", 5⟩]).1 =
      some ⟨3, 1024, true⟩ ∧
    (doFolderQuotaScan ⟨"f1", "/tmp/m"⟩ (Except.ok (2, 512)) [⟨"/tmp/m", 5⟩]).1 =
      some ⟨2, 512, true⟩ :=
  ⟨doQuotaScan_reset.1 ⟨"u1", true⟩ (Except.ok ()) (Except.ok (3, 1024)) [⟨"u1", 5⟩]
      3 1024 rfl rfl,
   doQuotaScan_reset.2.2.1 ⟨"f1", "/tmp/m"⟩ (Except.ok (2, 512)) [⟨"/tmp/m", 5⟩]
      2 512 rfl⟩

/-- C6: a PUT user quota-usage request that decodes, carries
non-negative values, has a valid mode and names an existing user is
rejected with 400 and the no-quota-restrictions message precisely when
mode is "add", the user has no quota restrictions and the provider's
quota tracking mode is 2; in that case no provider update is invoked and
the scan registry is untouched. -/
theorem updateUserQuotaUsage_addRejection :
    ∀ (username : String) (files size : Int) (modeQuery : Option String) (mode : String)
      (userExists : String → Except String User) (user : User) (tracking : Nat)
      (errStatus : String → Nat) (scans : List ActiveQuotaScan) (now : Int)
      (updateResult : Option String)
      (out : ApiResponse × Option QuotaUpdateCall × List ActiveQuotaScan),
      0 ≤ files → 0 ≤ size →
      getQuotaUpdateMode modeQuery = Except.ok mode →
      userExists username = Except.ok user →
      out = updateUserQuotaUsage (some (username, files, size)) modeQuery userExists
        tracking errStatus scans now updateResult →
      ((out.1 = ⟨StatusBadRequest,
          "this user has no quota restrictions, only reset mode is supported"⟩) ↔
        (mode = quotaUpdateModeAdd ∧ user.hasQuotaRestrictions = false ∧ tracking = 2)) ∧
      ((mode = quotaUpdateModeAdd ∧ user.hasQuotaRestrictions = false ∧ tracking = 2) →
        out.2.1 = none ∧ out.2.2 = scans) := by
  intro username files size modeQuery mode userExists user tracking errStatus scans now
    updateResult out hf hs hmode hlook hout
  have hneg : ¬(files < 0 ∨ size < 0) := by omega
  by_cases hc : mode = quotaUpdateModeAdd ∧ user.hasQuotaRestrictions = false ∧ tracking = 2
  · have hcond : (mode == quotaUpdateModeAdd ∧ user.hasQuotaRestrictions = false ∧
        (tracking == 2)) := by
      refine ⟨?_, hc.2.1, ?_⟩
      · simp [hc.1]
      · simp [hc.2.2]
    subst hout
    simp only [updateUserQuotaUsage, hmode, hlook, if_neg hneg, if_pos hcond]
    exact ⟨⟨fun _ => hc, fun _ => trivial⟩, fun _ => ⟨trivial, trivial⟩⟩
  · have hcond : ¬(mode == quotaUpdateModeAdd ∧ user.hasQuotaRestrictions = false ∧
        (tracking == 2)) := by
      intro hb
      exact hc ⟨by simpa using hb.1, hb.2.1, by simpa using hb.2.2⟩
    subst hout
    simp only [updateUserQuotaUsage, hmode, hlook, if_neg hneg, if_neg hcond]
    refine ⟨⟨fun habs => ?_, fun habs => absurd habs hc⟩, fun habs => absurd habs hc⟩
    by_cases hr : (AddQuotaScan scans user.username now).1 = false
    · rw [if_pos hr] at habs
      have : (409 : Nat) = 400 := congrArg ApiResponse.status habs
      omega
    · rw [if_neg hr] at habs
      match updateResult with
      | some e =>
        have : ("" : String) =
            "this user has no quota restrictions, only reset mode is supported" :=
          congrArg ApiResponse.message habs
        simp at this
      | none =>
        have : ("Quota updated" : String) =
            "this user has no quota restrictions, only reset mode is supported" :=
          congrArg ApiResponse.message habs
        simp at this

/-- Concrete instance of C6: with mode=add, a user without quota
restrictions and tracking mode 2, the request is rejected with 400 and
no update happens; flipping any of the three inputs (mode=reset, a user
with restrictions, tracking mode 1) avoids that rejection. -/
theorem updateUserQuotaUsage_addRejection_witness :
    ((updateUserQuotaUsage (some ("u1", 1, 10)) (some "add")
        (fun u => Except.ok ⟨u, false⟩) 2 (fun _ => 500) [] 3 none).1 =
      ⟨StatusBadRequest,
        "this user has no quota restrictions, only reset mode is supported"⟩ ∧
      (updateUserQuotaUsage (some ("u1", 1, 10)) (some "add")
        (fun u => Except.ok ⟨u, false⟩) 2 (fun _ => 500) [] 3 none).2.1 = none) ∧
    ¬(updateUserQuotaUsage (some ("u1", 1, 10)) (some "reset")
        (fun u => Except.ok ⟨u, false⟩) 2 (fun _ => 500) [] 3 none).1 =
      ⟨StatusBadRequest,
        "this user has no quota restrictions, only reset mode is supported"⟩ ∧
    ¬(updateUserQuotaUsage (some ("u1", 1, 10)) (some "add")
        (fun u => Except.ok ⟨u, true⟩) 2 (fun _ => 500) [] 3 none).1 =
      ⟨StatusBadRequest,
        "this user has no quota restrictions, only reset mode is supported"⟩ ∧
    ¬(updateUserQuotaUsage (some ("u1", 1, 10)) (some "add")
        (fun u => Except.ok ⟨u, false⟩) 1 (fun _ => 500) [] 3 none).1 =
      ⟨StatusBadRequest,
        "this user has no quota restrictions, only reset mode is supported"⟩ := by
  have h1 := updateUserQuotaUsage_addRejection "u1" 1 10 (some "add") "add"
    (fun u => Except.ok ⟨u, false⟩) ⟨"u1", false⟩ 2 (fun _ => 500) [] 3 none _
    (by decide) (by decide) rfl rfl rfl
  have h2 := updateUserQuotaUsage_addRejection "u1" 1 10 (some "reset") "reset"
    (fun u => Except.ok ⟨u, false⟩) ⟨"u1", false⟩ 2 (fun _ => 500) [] 3 none _
    (by decide) (by decide) rfl rfl rfl
  have h3 := updateUserQuotaUsage_addRejection "u1" 1 10 (some "add") "add"
    (fun u => Except.ok ⟨u, true⟩) ⟨"u1", true⟩ 2 (fun _ => 500) [] 3 none _
    (by decide) (by decide) rfl rfl rfl
  have h4 := updateUserQuotaUsage_addRejection "u1" 1 10 (some "add") "add"
    (fun u => Except.ok ⟨u, false⟩) ⟨"u1", false⟩ 1 (fun _ => 500) [] 3 none _
    (by decide) (by decide) rfl rfl rfl
  refine ⟨⟨h1.1.2 ⟨rfl, rfl, rfl⟩, (h1.2 ⟨rfl, rfl, rfl⟩).1⟩, ?_, ?_, ?_⟩
  · intro habs
    have := h2.1.1 habs
    simp [quotaUpdateModeAdd] at this
  · intro habs
    have := h3.1.1 habs
    simp at this
  · intro habs
    have := h4.1.1 habs
    omega

/-- C8 (counterexample): admitting a quota scan for a virtual folder
whose name differs from its mapped path stores the mapped path, not the
folder name, as the registry key. -/
theorem folderScanKey_counterexample :
    (startVFolderQuotaScan 1 (some "/tmp/mapped")
        (fun _ => Except.ok ⟨"folder1", "/tmp/mapped"⟩) (fun _ => 500) [] 7).2.2 =
      [⟨"/tmp/mapped", 7⟩] ∧
    ("/tmp/mapped" : String) ≠ "folder1" := by
  decide

/-- C8 (as amended): folder quota-scan registry entries are keyed by the
virtual folder's mapped path: admission through the POST handler appends
an entry whose key is `folder.MappedPath`, the deferred removal in
`doFolderQuotaScan` erases exactly the entry keyed by
`folder.MappedPath`, and snapshots return the registered entries (keyed
by mapped path) unchanged. -/
theorem folderScan_keyedByMappedPath :
    (∀ (tracking : Nat) (mappedPath : String)
      (lookup : String → Except String BaseVirtualFolder) (folder : BaseVirtualFolder)
      (errStatus : String → Nat) (scans : List ActiveVirtualFolderQuotaScan) (now : Int),
      tracking ≠ 0 → lookup mappedPath = Except.ok folder →
      (∀ s ∈ scans, s.mappedPath ≠ folder.mappedPath) →
      (startVFolderQuotaScan tracking (some mappedPath) lookup errStatus scans now).2.2 =
        scans ++ [⟨folder.mappedPath, now⟩]) ∧
    (∀ (folder : BaseVirtualFolder) (getDirSize : Except String (Int × Int))
      (scans : List ActiveVirtualFolderQuotaScan) (now : Int),
      (∀ s ∈ scans, s.mappedPath ≠ folder.mappedPath) →
      (doFolderQuotaScan folder getDirSize (scans ++ [⟨folder.mappedPath, now⟩])).2 =
        scans) ∧
    (∀ scans : List ActiveVirtualFolderQuotaScan, GetVFoldersQuotaScans scans = scans) := by
  refine ⟨fun tracking mappedPath lookup folder errStatus scans now htr hlook h => ?_,
    fun folder getDirSize scans now h => ?_, fun scans => rfl⟩
  · have h0 : (tracking == 0) = false := by simpa using htr
    have hadd := AddVFolderQuotaScan_true scans folder.mappedPath now h
    simp [startVFolderQuotaScan, h0, hlook, hadd]
  · have hidx : firstIdx (fun s => s.mappedPath == folder.mappedPath)
        (scans ++ [⟨folder.mappedPath, now⟩]) = some scans.length := by
      apply firstIdx_append_singleton
      · intro a ha
        simpa using h a ha
      · simp
    have hrm : (RemoveVFolderQuotaScan (scans ++ [⟨folder.mappedPath, now⟩])
        folder.mappedPath).2 = scans := by
      have hsw := swapRemove_concat_last scans
        (⟨folder.mappedPath, now⟩ : ActiveVirtualFolderQuotaScan)
      simp [RemoveVFolderQuotaScan, hidx, hsw]
    match getDirSize with
    | Except.error e => simp [doFolderQuotaScan, hrm]
    | Except.ok (nf, sz) => simp [doFolderQuotaScan, hrm]

/-- Concrete instance of the amended C8: a folder named "folder1" mapped
at "/tmp/mapped" registers the key "/tmp/mapped" on admission, and the
scan's completion removes exactly that entry. -/
theorem folderScan_keyedByMappedPath_witness :
    (startVFolderQuotaScan 1 (some "/tmp/mapped")
        (fun _ => Except.ok ⟨"folder1", "/tmp/mapped"⟩) (fun _ => 500)
        [⟨"/tmp/other", 1⟩] 7).2.2 =
      [⟨"/tmp/other", 1⟩, ⟨"/tmp/mapped", 7⟩] ∧
    (doFolderQuotaScan ⟨"folder1", "/tmp/mapped"⟩ (Except.ok (2, 512))
        [⟨"/tmp/other", 1⟩, ⟨"/tmp/mapped", 7⟩]).2 = [⟨"/tmp/other", 1⟩] :=
  ⟨folderScan_keyedByMappedPath.1 1 "/tmp/mapped"
      (fun _ => Except.ok ⟨"folder1", "/tmp/mapped"⟩) ⟨"folder1", "/tmp/mapped"⟩
      (fun _ => 500) [⟨"/tmp/other", 1⟩] 7 (by decide) rfl (by decide),
   folderScan_keyedByMappedPath.2.1 ⟨"folder1", "/tmp/mapped"⟩ (Except.ok (2, 512))
      [⟨"/tmp/other", 1⟩] 7 (by decide)⟩

/-! ## Transfer close semantics (transfer.go) -/

/-- The observable outcome of closing a transfer: the error returned by
Close, the filesystem afterwards (a map from path to file size), the
transfer's final state, and the quota update applied, if any. -/
structure CloseResult where
  err : Option String
  fs : String → Option Int
  transfer : Transfer
  quotaUpdate : Option QuotaUpdateCall

/-- Modelled from the spec: Transfer.Close — transfer.go is not among
the sources under src/, only its tests are.  Spec §4.2: under Standard
mode writes go directly to the target and a partially-written file may
remain on failure; under Atomic mode a successful close renames the
staging path (`t.file`) onto the target (`t.path`) and on failure the
staging path is removed and the target is untouched; under
Atomic-with-resume the staging file is renamed onto the target on
failure, preserving partial bytes.  Failed uploads charge no received
bytes — the counter is zeroed (TestUploadError) and no quota update is
applied (TestTransferUpdateQuota) — and Close returns the transfer
error (TestUploadError).  Successful uploads charge
(+1 file if isNewFile, final size − initial size). -/
def Transfer.Close (t : Transfer) (uploadMode : Nat) (fs : String → Option Int) :
    CloseResult :=
  match t.transferError with
  | some e =>
    let t' : Transfer :=
      if t.transferType == transferUpload then
        { t with bytesReceived := 0, isFinished := true }
      else
        { t with isFinished := true }
    if t.transferType == transferUpload ∧ uploadMode == uploadModeAtomic then
      { err := some e, fs := fun p => if p == t.file then none else fs p,
        transfer := t', quotaUpdate := none }
    else if t.transferType == transferUpload ∧ uploadMode == uploadModeAtomicWithResume then
      { err := some e,
        fs := fun p => if p == t.path then fs t.file else if p == t.file then none else fs p,
        transfer := t', quotaUpdate := none }
    else
      { err := some e, fs := fs, transfer := t', quotaUpdate := none }
  | none =>
    let t' : Transfer := { t with isFinished := true }
    if t.transferType == transferUpload then
      if isAtomicUploadEnabled uploadMode then
        { err := none,
          fs := fun p => if p == t.path then fs t.file else if p == t.file then none else fs p,
          transfer := t',
          quotaUpdate :=
            some ⟨if t.isNewFile then 1 else 0, (fs t.file).getD 0 - t.initialSize, false⟩ }
      else
        { err := none, fs := fs, transfer := t',
          quotaUpdate :=
            some ⟨if t.isNewFile then 1 else 0, (fs t.path).getD 0 - t.initialSize, false⟩ }
    else
      { err := none, fs := fs, transfer := t', quotaUpdate := none }

/-- C3: closing an upload transfer that carries a transfer error under
atomic upload mode removes the temporary staging file, leaves every
other path — in particular the target — unchanged, returns the transfer
error from Close, zeroes the received-bytes counter and applies no quota
update. -/
theorem transferClose_atomicUploadError :
    ∀ (t : Transfer) (fs : String → Option Int) (e : String),
      t.transferError = some e → t.transferType = transferUpload → t.file ≠ t.path →
      (Transfer.Close t uploadModeAtomic fs).err = some e ∧
      (Transfer.Close t uploadModeAtomic fs).fs t.file = none ∧
      (∀ p, p ≠ t.file → (Transfer.Close t uploadModeAtomic fs).fs p = fs p) ∧
      (Transfer.Close t uploadModeAtomic fs).fs t.path = fs t.path ∧
      (Transfer.Close t uploadModeAtomic fs).transfer.bytesReceived = 0 ∧
      (Transfer.Close t uploadModeAtomic fs).quotaUpdate = none := by
  intro t fs e herr htype hne
  have hcond : (t.transferType == transferUpload ∧
      (uploadModeAtomic == uploadModeAtomic : Bool)) := by
    refine ⟨?_, by simp⟩
    simp [htype]
  have hclose : Transfer.Close t uploadModeAtomic fs =
      { err := some e, fs := fun p => if p == t.file then none else fs p,
        transfer := { t with bytesReceived := 0, isFinished := true },
        quotaUpdate := none } := by
    rw [Transfer.Close]
    rw [herr]
    simp only [if_pos hcond, htype]
    simp
  refine ⟨by rw [hclose], by rw [hclose]; simp, fun p hp => ?_, ?_, by rw [hclose],
    by rw [hclose]⟩
  · rw [hclose]
    simp only []
    have : (p == t.file) = false := by simpa using hp
    simp [this]
  · rw [hclose]
    simp only []
    have : (t.path == t.file) = false := by
      simp only [beq_eq_false_iff_ne, ne_eq]
      exact fun habs => hne habs.symm
    simp [this]

/-- Concrete instance of C3, mirroring TestUploadError: an atomic-mode
upload to "testfile" staged at "temptestfile" with 100 bytes received
fails with "fake error"; Close returns that error, deletes the staging
file, leaves the (absent) target absent, zeroes bytesReceived and issues
no quota update. -/
theorem transferClose_atomicUploadError_witness :
    (Transfer.Close
        ⟨"temptestfile", "testfile", "", 0, 0, 0, 100, true, 0, 0, some "fake error", false⟩
        uploadModeAtomic
        (fun p => if p == "temptestfile" then some 30 else none)).err = some "fake error" ∧
    (Transfer.Close
        ⟨"temptestfile", "testfile", "", 0, 0, 0, 100, true, 0, 0, some "fake error", false⟩
        uploadModeAtomic
        (fun p => if p == "temptestfile" then some 30 else none)).fs "temptestfile" = none ∧
    (Transfer.Close
        ⟨"temptestfile", "testfile", "", 0, 0, 0, 100, true, 0, 0, some "fake error", false⟩
        uploadModeAtomic
        (fun p => if p == "temptestfile" then some 30 else none)).fs "testfile" = none ∧
    (Transfer.Close
        ⟨"temptestfile", "testfile", "", 0, 0, 0, 100, true, 0, 0, some "fake error", false⟩
        uploadModeAtomic
        (fun p => if p == "temptestfile" then some 30 else none)).transfer.bytesReceived
      = 0 ∧
    (Transfer.Close
        ⟨"temptestfile", "testfile", "", 0, 0, 0, 100, true, 0, 0, some "fake error", false⟩
        uploadModeAtomic
        (fun p => if p == "temptestfile" then some 30 else none)).quotaUpdate = none := by
  have h := transferClose_atomicUploadError
    ⟨"temptestfile", "testfile", "", 0, 0, 0, 100, true, 0, 0, some "fake error", false⟩
    (fun p => if p == "temptestfile" then some 30 else none) "fake error"
    rfl rfl (by decide)
  refine ⟨h.1, h.2.1, ?_, h.2.2.2.2.1, h.2.2.2.2.2⟩
  have := h.2.2.1 "testfile" (by decide)
  rw [this]
  decide

end Sftpgo
